import Mathlib

/-!
# Verification of `patrickjane.py` (Microscopy Data Organiser)

A shallow embedding of the categorisation-and-reporting pipeline of
`src/patrickjane.py`:

* the four-way classification split (`categories`, lines 247-252),
* the infected summary table with percentages (`infected_summary_df`,
  lines 196-244),
* the histogram binning of nuclei counts per infected cell
  (`nuclei_distribution`, lines 282-293),
* the sheet-name allocator (`get_unique_sheet_name`, lines 86-98),
* the final sheet reorder (`priority_order`, lines 356-363),
* the per-input driver loop with its error handling (lines 159-174 and
  the chart-placement search at lines 316-320).

Numeric columns are embedded as exact rationals; pandas' float division by
zero is embedded by the explicit value type `PdVal` carrying NaN and the
infinities, and `.round(2)` by exact half-to-even rounding at two decimals.
Python strings are embedded as Lean `String`s (lists of characters), with
Python's slice semantics (`s[:k]`, including negative `k`) made explicit.
-/

namespace PatrickJane

/-- Round a rational to the nearest integer, ties to even: the rounding used
by numpy/pandas `.round`. -/
def roundHalfEven (q : ℚ) : ℤ :=
  let f := ⌊q⌋
  let frac := q - (f : ℚ)
  if frac < 1 / 2 then f
  else if 1 / 2 < frac then f + 1
  else if f % 2 = 0 then f else f + 1

/-- `Series.round(2)` of pandas on an exact value: round to 2 decimal
places, ties to even. -/
def round2 (q : ℚ) : ℚ := (roundHalfEven (q * 100) : ℚ) / 100

/-- A pandas float cell value: an exact number, NaN, or a signed infinity.
Dividing by zero in pandas yields NaN (for 0/0) or a signed infinity, never
an exception. -/
inductive PdVal where
  | num (q : ℚ)
  | nan
  | posinf
  | neginf
deriving DecidableEq, Repr

/-- pandas/numpy scalar division on `PdVal`. Only the `num / num` case is
exercised by the pipeline (a count divided by a total). -/
def pdDiv : PdVal → PdVal → PdVal
  | .num a, .num b =>
      if b = 0 then (if a = 0 then .nan else if 0 < a then .posinf else .neginf)
      else .num (a / b)
  | _, _ => .nan

/-- pandas/numpy scalar multiplication on `PdVal` (used to scale a ratio by
100). -/
def pdMul : PdVal → PdVal → PdVal
  | .num a, .num b => .num (a * b)
  | .posinf, .num b => if 0 < b then .posinf else if b < 0 then .neginf else .nan
  | .neginf, .num b => if 0 < b then .neginf else if b < 0 then .posinf else .nan
  | .num a, .posinf => if 0 < a then .posinf else if a < 0 then .neginf else .nan
  | .num a, .neginf => if 0 < a then .neginf else if a < 0 then .posinf else .nan
  | _, _ => .nan

/-- pandas `.round(2)` on `PdVal`: NaN and the infinities round to
themselves. -/
def pdRound2 : PdVal → PdVal
  | .num q => .num (round2 q)
  | .nan => .nan
  | .posinf => .posinf
  | .neginf => .neginf

/-- One loaded CSV row restricted to the columns the pipeline computes
with: the identifier, the two binary classification flags and the nuclei
count, all integer-valued columns in the analysis output (the remaining
default column, `AreaShape_Area`, participates in the pipeline only
through its column name). -/
structure Record where
  ObjectNumber : ℤ
  Classify_Mononucleated : ℤ
  Classify_Infected : ℤ
  Children_Nuclei_Count : ℤ
deriving DecidableEq, Repr

/-- `df[df['Classify_Infected'] == 1]` (line 196). -/
def infected_summary (df : List Record) : List Record :=
  df.filter (fun r => decide (r.Classify_Infected = 1))

/-- `infected_summary[infected_summary['Classify_Mononucleated'] == 1]`
(line 199). -/
def mono_df (df : List Record) : List Record :=
  (infected_summary df).filter (fun r => decide (r.Classify_Mononucleated = 1))

/-- `infected_summary[infected_summary['Classify_Mononucleated'] == 0]`
(line 204). -/
def multi_df (df : List Record) : List Record :=
  (infected_summary df).filter (fun r => decide (r.Classify_Mononucleated = 0))

/-- `mono_df.shape[0]` (line 200). -/
def mono_cell_count (df : List Record) : ℕ := (mono_df df).length

/-- `mono_df['Children_Nuclei_Count'].sum()` (line 201). -/
def mono_nuclei_count (df : List Record) : ℤ :=
  ((mono_df df).map (fun r => r.Children_Nuclei_Count)).sum

/-- `multi_df.shape[0]` (line 205). -/
def multi_cell_count (df : List Record) : ℕ := (multi_df df).length

/-- `multi_df['Children_Nuclei_Count'].sum()` (line 206). -/
def multi_nuclei_count (df : List Record) : ℤ :=
  ((multi_df df).map (fun r => r.Children_Nuclei_Count)).sum

/-- `mono_cell_count + multi_cell_count` (line 209). -/
def total_infected_cell_count (df : List Record) : ℕ :=
  mono_cell_count df + multi_cell_count df

/-- `mono_nuclei_count + multi_nuclei_count` (line 210). -/
def total_infected_nuclei_count (df : List Record) : ℤ :=
  mono_nuclei_count df + multi_nuclei_count df

/-- `df.shape[0]` (lines 190 and 220). -/
def total_cells (df : List Record) : ℕ := df.length

/-- `df['Children_Nuclei_Count'].sum()` (lines 193 and 221). -/
def total_nuclei (df : List Record) : ℤ :=
  (df.map (fun r => r.Children_Nuclei_Count)).sum

/-- One row of the summary table written to the 'Cell Count Summary' sheet.
The percentage cells of the grand-total row are the empty string in the
code (lines 239-240); that blank is embedded as `none`. -/
structure SummaryRow where
  Category : String
  Infected_Cell_Count : ℕ
  Infected_Nuclei_Count : ℤ
  pct_of_total_cells : Option PdVal
  pct_of_total_nuclei : Option PdVal
deriving DecidableEq, Repr

/-- `(count / total * 100).round(2)` — the percentage computation of
lines 231-232, over `PdVal` so that a zero total yields NaN (or a signed
infinity), never an exception. -/
def pct (x total : ℚ) : PdVal :=
  pdRound2 (pdMul (pdDiv (.num x) (.num total)) (.num 100))

/-- `infected_summary_df` after the percentage columns and the grand-total
row are attached (lines 224-244): three infected rows with percentages over
the all-category totals, then one total row without percentages. -/
def infected_summary_df (df : List Record) : List SummaryRow :=
  [ { Category := "Mononucleated Infected"
      Infected_Cell_Count := mono_cell_count df
      Infected_Nuclei_Count := mono_nuclei_count df
      pct_of_total_cells := some (pct (mono_cell_count df) (total_cells df))
      pct_of_total_nuclei := some (pct (mono_nuclei_count df) (total_nuclei df)) },
    { Category := "Multinucleated Infected"
      Infected_Cell_Count := multi_cell_count df
      Infected_Nuclei_Count := multi_nuclei_count df
      pct_of_total_cells := some (pct (multi_cell_count df) (total_cells df))
      pct_of_total_nuclei := some (pct (multi_nuclei_count df) (total_nuclei df)) },
    { Category := "Total Infected"
      Infected_Cell_Count := total_infected_cell_count df
      Infected_Nuclei_Count := total_infected_nuclei_count df
      pct_of_total_cells := some (pct (total_infected_cell_count df) (total_cells df))
      pct_of_total_nuclei := some (pct (total_infected_nuclei_count df) (total_nuclei df)) },
    { Category := "Total incl uninfected"
      Infected_Cell_Count := total_cells df
      Infected_Nuclei_Count := total_nuclei df
      pct_of_total_cells := none
      pct_of_total_nuclei := none } ]

/-- `df[(df['Classify_Mononucleated'] == 1) & (df['Classify_Infected'] == 1)]`
(line 248). -/
def mono_infected (df : List Record) : List Record :=
  df.filter (fun r =>
    decide (r.Classify_Mononucleated = 1) && decide (r.Classify_Infected = 1))

/-- `df[(df['Classify_Mononucleated'] == 0) & (df['Classify_Infected'] == 1)]`
(line 249). -/
def multi_infected (df : List Record) : List Record :=
  df.filter (fun r =>
    decide (r.Classify_Mononucleated = 0) && decide (r.Classify_Infected = 1))

/-- `df[(df['Classify_Mononucleated'] == 1) & (df['Classify_Infected'] == 0)]`
(line 250). -/
def mono_uninfected (df : List Record) : List Record :=
  df.filter (fun r =>
    decide (r.Classify_Mononucleated = 1) && decide (r.Classify_Infected = 0))

/-- `df[(df['Classify_Mononucleated'] == 0) & (df['Classify_Infected'] == 0)]`
(line 251). -/
def multi_uninfected (df : List Record) : List Record :=
  df.filter (fun r =>
    decide (r.Classify_Mononucleated = 0) && decide (r.Classify_Infected = 0))

/-- The `categories` dict of lines 247-252. -/
def categories (df : List Record) : List (String × List Record) :=
  [ ("Mononucleated_Infected", mono_infected df),
    ("Multinucleated_Infected", multi_infected df),
    ("Mononucleated_Uninfected", mono_uninfected df),
    ("Multinucleated_Uninfected", multi_uninfected df) ]

/-- The label of bucket `j` (1-based): the exact counts `1 .. max_bin - 1`,
then the overflow label `f"{max_bin}+"` (line 285). -/
def bucket_label (maxBin j : ℕ) : String :=
  if j = maxBin then toString maxBin ++ "+" else toString j

/-- Membership of a nuclei count in bucket `j`: `pd.cut` with bins
`[0, 1, ..., max_bin - 1, inf]`, `right=True`, `include_lowest=True`
(lines 284-290) puts `x` in bucket 1 when `0 ≤ x ≤ 1`, in bucket
`2 ≤ j < max_bin` when `j - 1 < x ≤ j`, and in the overflow bucket when
`max_bin - 1 < x`; negative values fall outside every bin (NaN, dropped by
`value_counts`). -/
def in_bucket (maxBin j : ℕ) (x : ℤ) : Bool :=
  (if j = 1 then decide (0 ≤ x) else decide ((j : ℤ) - 1 < x)) &&
  (if j = maxBin then true else decide (x ≤ (j : ℤ)))

/-- `binned.value_counts().sort_index()` (line 292): `value_counts` on a
categorical series lists every category, zero counts included, and
`sort_index` orders them in category (label) order. -/
def nuclei_distribution (maxBin : ℕ) (xs : List ℤ) : List (String × ℕ) :=
  (List.range maxBin).map (fun k =>
    (bucket_label maxBin (k + 1), xs.countP (in_bucket maxBin (k + 1))))

/-- Python's `s[:stop]` for an arbitrary (possibly negative) integer stop:
a nonnegative stop keeps at most `stop` leading characters; a negative stop
drops `-stop` trailing characters (clamped at the empty string). -/
def pySliceStop (s : String) (stop : Int) : String :=
  if 0 ≤ stop then ⟨s.data.take stop.toNat⟩
  else ⟨s.data.take (s.data.length - (-stop).toNat)⟩

/-- The collision candidate built in the `while` loop of
`get_unique_sheet_name` (lines 93-94):
`base_name[:max_length - len(suffix)] + suffix` with `suffix = f"_{counter}"`. -/
def candidateName (base_name : String) (max_length counter : ℕ) : String :=
  let suffix := "_" ++ toString counter
  pySliceStop base_name ((max_length : Int) - (suffix.length : Int)) ++ suffix

/-- The `while unique_name in used_sheet_names` loop of lines 92-95, made
total with an explicit iteration budget `fuel`; `none` embeds a loop that
is still colliding when the budget runs out. -/
def allocLoop (used : List String) (base_name : String) (max_length : ℕ) :
    ℕ → String → ℕ → Option String
  | 0, unique_name, _ =>
      if unique_name ∈ used then none else some unique_name
  | fuel + 1, unique_name, counter =>
      if unique_name ∈ used then
        allocLoop used base_name max_length fuel
          (candidateName base_name max_length counter) (counter + 1)
      else some unique_name

/-- `get_unique_sheet_name(name, max_length=25)` (lines 86-98) acting on an
explicit used-name set: truncate to `max_length`, disambiguate with `_1`,
`_2`, ... against `used`, and record the returned name. -/
def get_unique_sheet_name (fuel : ℕ) (used : List String) (name : String)
    (max_length : ℕ := 25) : Option (String × List String) :=
  let base_name := pySliceStop name (max_length : Int)
  (allocLoop used base_name max_length fuel base_name 1).map
    (fun u => (u, u :: used))

/-- A sequence of allocator calls within one artifact scope, threading the
used-name set; returns the allocated names in call order together with the
final used-name set. -/
def allocRun (fuel : ℕ) : List String → List String →
    Option (List String × List String)
  | used, [] => some ([], used)
  | used, n :: ns =>
      match get_unique_sheet_name fuel used n with
      | none => none
      | some (u, used') =>
          (allocRun fuel used' ns).map (fun p => (u :: p.1, p.2))

/-- `required_columns` (line 157): the three fixed columns plus the
requested summary columns. -/
def required_columns (summary_columns : List String) : List String :=
  ["ObjectNumber", "Classify_Mononucleated", "Classify_Infected"] ++ summary_columns

/-- The default of the `-c` option (line 60). -/
def default_columns : List String := ["AreaShape_Area", "Children_Nuclei_Count"]

/-- The hardcoded `priority_order` of line 356. -/
def priority_order : List String :=
  ["Cell Count Summary", "AreaShape_Area Summary", "Children_Nuclei_Count Sum"]

/-- The four keys of the `categories` dict, requested as sheet names in
dict order (lines 247-252 and 270-272). -/
def category_sheet_names : List String :=
  [ "Mononucleated_Infected", "Multinucleated_Infected",
    "Mononucleated_Uninfected", "Multinucleated_Uninfected" ]

/-- Appending sheets to a workbook with `if_sheet_exists='replace'`: a name
already present keeps its position (contents replaced), a new name is
appended. -/
def append_sheets (existing : List String) (new : List String) : List String :=
  new.foldl (fun acc n => if n ∈ acc then acc else acc ++ [n]) existing

/-- The sheet reorder of lines 358-363:
`[s for s in priority_order if s in existing] +
 [s for s in existing if s not in priority_order]`. -/
def reorderSheets (existing : List String) : List String :=
  priority_order.filter (fun s => decide (s ∈ existing)) ++
  existing.filter (fun s => decide (s ∉ priority_order))

/-- The sheet names allocated by `jane` for the requested summary columns
(line 140): `f"{col} Summary"` for each column, in order, through the
allocator. -/
def jane_sheet_names (fuel : ℕ) (used : List String) (summary_columns : List String) :
    Option (List String × List String) :=
  allocRun fuel used (summary_columns.map (fun col => col ++ " Summary"))

/-- The artifact's sheet list just before the final reorder. When the
requested columns do not include `Children_Nuclei_Count`, line 193
(`df['Children_Nuclei_Count'].sum()`) raises an uncaught `KeyError` on
the loaded frame before the first Excel write at line 269, so no sheet is
ever produced (`none`). Otherwise: the four category sheets from a freshly
reset allocator (lines 267-273), then the 'Cell Count Summary' sheet
(line 305, written without the allocator), then one summary sheet per
requested column (lines 136-141). -/
def sheets_before_reorder (fuel : ℕ) (summary_columns : List String) :
    Option (List String) :=
  if "Children_Nuclei_Count" ∈ required_columns summary_columns then
    match allocRun fuel [] category_sheet_names with
    | none => none
    | some (cats, used) =>
        match jane_sheet_names fuel used summary_columns with
        | none => none
        | some (colSheets, _) =>
            some (append_sheets (append_sheets cats ["Cell Count Summary"]) colSheets)
  else none

/-- The artifact's sheet list after the final reorder (lines 352-363). -/
def final_sheet_order (fuel : ℕ) (summary_columns : List String) :
    Option (List String) :=
  (sheets_before_reorder fuel summary_columns).map reorderSheets

/-- One input source of the run: a path that does not exist, a source with
nothing to parse, or a parsed table (its header row, and its rows already
projected to the required record fields). -/
inductive InputSource where
  | missing
  | empty
  | table (headers : List String) (rows : List Record)

/-- The per-input failures recognised by the driver loop (lines 161-174):
a missing path, `pd.errors.EmptyDataError`, or the `ValueError` that
`pd.read_csv(usecols=...)` raises naming the absent columns. -/
inductive PjError where
  | sourceNotFound
  | emptySource
  | missingColumns (missing : List String)
deriving DecidableEq, Repr

/-- `df.columns.str.strip()` (line 177): remove leading and trailing
whitespace from a header name. -/
def str_strip (s : String) : String :=
  ⟨((s.data.dropWhile Char.isWhitespace).reverse.dropWhile Char.isWhitespace).reverse⟩

/-- Modelled pandas collaborator: the requested `usecols` entries that the
header row does not contain; `pd.read_csv` raises a `ValueError` naming
exactly these when the list is nonempty. -/
def missing_usecols (headers required : List String) : List String :=
  required.filter (fun c => decide (c ∉ headers))

/-- Loading one input (lines 161-174): a missing path or an empty source is
a distinct error, and `usecols` fails when any required column is absent
from the raw (unstripped) header. -/
def read_input (required : List String) : InputSource → Except PjError (List Record)
  | .missing => .error .sourceNotFound
  | .empty => .error .emptySource
  | .table headers rows =>
      if missing_usecols headers required = [] then .ok rows
      else .error (.missingColumns (missing_usecols headers required))

/-- The optional zero-nuclei filter (lines 180-187): only applied when the
flag is set and the column was loaded; otherwise a no-op. -/
def apply_zero_filter (remove_zero_nuclei : Bool) (required : List String)
    (df : List Record) : List Record :=
  if remove_zero_nuclei ∧ "Children_Nuclei_Count" ∈ required then
    df.filter (fun r => decide (r.Children_Nuclei_Count ≠ 0))
  else df

/-- The section-header literal written at line 299 and searched for at
line 318. -/
def distribution_header : String := "Nuclei Distribution in Infected Cells"

/-- Column A of the combined 'Cell Count Summary' sheet (lines 296-301):
the `Category` header cell, the summary rows, two blank spacer rows, the
section header, then the histogram labels. -/
def combined_colA (summary : List SummaryRow) (dist : List (String × ℕ)) :
    List String :=
  "Category" :: (summary.map (fun row => row.Category) ++ ["", ""] ++
    [distribution_header] ++ dist.map (fun b => b.1))

/-- The search of lines 316-320: scan column A top to bottom and on every
match set `start_row` to the matching row plus one (rows are 1-based; the
inner `break` leaves the outer loop running, so a later match wins);
`none` embeds `start_row` never being assigned. -/
def find_start_row_aux : List String → ℕ → Option ℕ
  | [], _ => none
  | c :: rest, row =>
      match find_start_row_aux rest (row + 1) with
      | some r => some r
      | none => if c = distribution_header then some (row + 1) else none

/-- `start_row` as left by the loop of lines 316-320, scanning from row 1. -/
def find_start_row (colA : List String) : Option ℕ :=
  find_start_row_aux colA 1

/-- What the pipeline computes for one successfully loaded input: the
summary table, the histogram distribution, column A of the combined sheet,
and the chart anchor row. -/
structure Artifact where
  summary : List SummaryRow
  distribution : List (String × ℕ)
  colA : List String
  start_row : ℕ
deriving DecidableEq, Repr

/-- The per-input pipeline as an input-only function: load, optionally drop
zero-nuclei rows, build the summary and histogram, and place the chart at
the found section header. -/
def process_input (summary_columns : List String) (remove_zero_nuclei : Bool)
    (maxBin : ℕ) (inp : InputSource) : Except PjError Artifact :=
  match read_input (required_columns summary_columns) inp with
  | .error e => .error e
  | .ok rows =>
      let df := apply_zero_filter remove_zero_nuclei (required_columns summary_columns) rows
      let summary := infected_summary_df df
      let dist := nuclei_distribution maxBin
        ((infected_summary df).map (fun r => r.Children_Nuclei_Count))
      let colA := combined_colA summary dist
      .ok { summary := summary, distribution := dist, colA := colA,
            start_row := (find_start_row colA).getD 0 }

/-- One iteration of the module-level `for input_file in args.input` loop
(lines 159-350), threading the module-level `start_row` binding across
iterations. A load failure is caught and logged (`continue`): the result is
an error entry and the state is untouched. On success the pipeline runs;
`df['Children_Nuclei_Count']` at line 193 raises an uncaught `KeyError`
when that column was not loaded (`none`: the whole run dies), and if the
section-header search found nothing the stale `start_row` of a previous
iteration is silently reused — or, on the first iteration, the unbound name
raises an uncaught `NameError` (`none`). -/
def driver_step (summary_columns : List String) (remove_zero_nuclei : Bool)
    (maxBin : ℕ) (st : Option ℕ) (inp : InputSource) :
    Option (Option ℕ × Except PjError Artifact) :=
  match read_input (required_columns summary_columns) inp with
  | .error e => some (st, .error e)
  | .ok rows =>
      if "Children_Nuclei_Count" ∈ required_columns summary_columns then
        let df := apply_zero_filter remove_zero_nuclei (required_columns summary_columns) rows
        let summary := infected_summary_df df
        let dist := nuclei_distribution maxBin
          ((infected_summary df).map (fun r => r.Children_Nuclei_Count))
        let colA := combined_colA summary dist
        match find_start_row colA with
        | some r =>
            some (some r, .ok { summary := summary, distribution := dist,
                                colA := colA, start_row := r })
        | none =>
            match st with
            | some r =>
                some (some r, .ok { summary := summary, distribution := dist,
                                    colA := colA, start_row := r })
            | none => none
      else none

/-- The whole run (lines 159-366): process the inputs in order with the
`start_row` binding threaded through; `none` embeds an uncaught exception
aborting the entire run. -/
def driver_run (summary_columns : List String) (remove_zero_nuclei : Bool)
    (maxBin : ℕ) : Option ℕ → List InputSource →
    Option (List (Except PjError Artifact))
  | _, [] => some []
  | st, inp :: rest =>
      match driver_step summary_columns remove_zero_nuclei maxBin st inp with
      | none => none
      | some (st', res) =>
          (driver_run summary_columns remove_zero_nuclei maxBin st' rest).map
            (fun l => res :: l)

/-! ## Concrete sample inputs used by witnesses -/

/-- A three-record sample: one mono-infected, one multi-infected, one
mono-uninfected record (fields in declaration order: identifier,
mononucleated flag, infected flag, nuclei count). -/
def sample_df : List Record := [⟨1, 1, 1, 2⟩, ⟨2, 0, 1, 3⟩, ⟨3, 1, 0, 1⟩]

/-- A record whose mononucleated flag is 2, i.e. not a valid binary flag. -/
def bad_flag_record : Record := ⟨7, 2, 1, 4⟩

/-- A ten-record sample matching the end-to-end summary scenario:
4 mono-infected records with nuclei counts summing to 8, 2 multi-infected
records with nuclei counts summing to 5, 4 uninfected records, and a grand
total of 20 nuclei. -/
def sample_df10 : List Record :=
  [⟨1, 1, 1, 2⟩, ⟨2, 1, 1, 2⟩, ⟨3, 1, 1, 2⟩, ⟨4, 1, 1, 2⟩,
   ⟨5, 0, 1, 2⟩, ⟨6, 0, 1, 3⟩,
   ⟨7, 1, 0, 3⟩, ⟨8, 0, 0, 4⟩, ⟨9, 1, 0, 0⟩, ⟨10, 0, 0, 0⟩]

/-- A single record with zero nuclei (and so zero total nuclei). -/
def sample_zero_nuclei_df : List Record := [⟨1, 1, 1, 0⟩]

/-! ## Lemmas about the classification split -/

theorem mem_mono_infected {df : List Record} {r : Record} :
    r ∈ mono_infected df ↔
      r ∈ df ∧ r.Classify_Mononucleated = 1 ∧ r.Classify_Infected = 1 := by
  simp [mono_infected, List.mem_filter]

theorem mem_multi_infected {df : List Record} {r : Record} :
    r ∈ multi_infected df ↔
      r ∈ df ∧ r.Classify_Mononucleated = 0 ∧ r.Classify_Infected = 1 := by
  simp [multi_infected, List.mem_filter]

theorem mem_mono_uninfected {df : List Record} {r : Record} :
    r ∈ mono_uninfected df ↔
      r ∈ df ∧ r.Classify_Mononucleated = 1 ∧ r.Classify_Infected = 0 := by
  simp [mono_uninfected, List.mem_filter]

theorem mem_multi_uninfected {df : List Record} {r : Record} :
    r ∈ multi_uninfected df ↔
      r ∈ df ∧ r.Classify_Mononucleated = 0 ∧ r.Classify_Infected = 0 := by
  simp [multi_uninfected, List.mem_filter]

theorem countP_add_four {α : Type} (l : List α) (p1 p2 p3 p4 : α → Bool)
    (h : ∀ a ∈ l, (p1 a).toNat + (p2 a).toNat + (p3 a).toNat + (p4 a).toNat = 1) :
    l.countP p1 + l.countP p2 + l.countP p3 + l.countP p4 = l.length := by
  induction l with
  | nil => simp
  | cons a t ih =>
    have ha := h a (List.mem_cons_self a t)
    have ht := ih (fun x hx => h x (List.mem_cons_of_mem a hx))
    simp only [List.countP_cons, List.length_cons]
    cases hp1 : p1 a <;> cases hp2 : p2 a <;> cases hp3 : p3 a <;> cases hp4 : p4 a <;>
      simp [hp1, hp2, hp3, hp4] at ha ⊢ <;> omega

/-- C1: For every input RecordSet in which every record's
`Classify_Mononucleated` and `Classify_Infected` flags are exactly 0 or 1,
the Classifier's four category outputs are pairwise disjoint and their
union equals the input set: the four category lengths sum to the input
length, a record is in the input iff it is in one of the four categories,
and no record is in two categories at once. -/
theorem classifier_partition (df : List Record)
    (hflags : ∀ r ∈ df,
      (r.Classify_Mononucleated = 0 ∨ r.Classify_Mononucleated = 1) ∧
      (r.Classify_Infected = 0 ∨ r.Classify_Infected = 1)) :
    ((mono_infected df).length + (multi_infected df).length +
      (mono_uninfected df).length + (multi_uninfected df).length = df.length)
    ∧ (∀ r, r ∈ df ↔ (r ∈ mono_infected df ∨ r ∈ multi_infected df ∨
        r ∈ mono_uninfected df ∨ r ∈ multi_uninfected df))
    ∧ (∀ r, ¬(r ∈ mono_infected df ∧ r ∈ multi_infected df))
    ∧ (∀ r, ¬(r ∈ mono_infected df ∧ r ∈ mono_uninfected df))
    ∧ (∀ r, ¬(r ∈ mono_infected df ∧ r ∈ multi_uninfected df))
    ∧ (∀ r, ¬(r ∈ multi_infected df ∧ r ∈ mono_uninfected df))
    ∧ (∀ r, ¬(r ∈ multi_infected df ∧ r ∈ multi_uninfected df))
    ∧ (∀ r, ¬(r ∈ mono_uninfected df ∧ r ∈ multi_uninfected df)) := by
  refine ⟨?_, ?_, ?_, ?_, ?_, ?_, ?_, ?_⟩
  · have : (mono_infected df).length = df.countP
        (fun r => decide (r.Classify_Mononucleated = 1) && decide (r.Classify_Infected = 1)) := by
      simp [mono_infected, List.countP_eq_length_filter]
    rw [this]
    have : (multi_infected df).length = df.countP
        (fun r => decide (r.Classify_Mononucleated = 0) && decide (r.Classify_Infected = 1)) := by
      simp [multi_infected, List.countP_eq_length_filter]
    rw [this]
    have : (mono_uninfected df).length = df.countP
        (fun r => decide (r.Classify_Mononucleated = 1) && decide (r.Classify_Infected = 0)) := by
      simp [mono_uninfected, List.countP_eq_length_filter]
    rw [this]
    have : (multi_uninfected df).length = df.countP
        (fun r => decide (r.Classify_Mononucleated = 0) && decide (r.Classify_Infected = 0)) := by
      simp [multi_uninfected, List.countP_eq_length_filter]
    rw [this]
    refine countP_add_four df _ _ _ _ (fun r hr => ?_)
    obtain ⟨hm, hi⟩ := hflags r hr
    rcases hm with hm | hm <;> rcases hi with hi | hi <;> rw [hm, hi] <;> decide
  · intro r
    constructor
    · intro hr
      obtain ⟨hm, hi⟩ := hflags r hr
      rcases hm with hm | hm <;> rcases hi with hi | hi
      · exact Or.inr (Or.inr (Or.inr (mem_multi_uninfected.mpr ⟨hr, hm, hi⟩)))
      · exact Or.inr (Or.inl (mem_multi_infected.mpr ⟨hr, hm, hi⟩))
      · exact Or.inr (Or.inr (Or.inl (mem_mono_uninfected.mpr ⟨hr, hm, hi⟩)))
      · exact Or.inl (mem_mono_infected.mpr ⟨hr, hm, hi⟩)
    · rintro (h | h | h | h)
      · exact (mem_mono_infected.mp h).1
      · exact (mem_multi_infected.mp h).1
      · exact (mem_mono_uninfected.mp h).1
      · exact (mem_multi_uninfected.mp h).1
  · rintro r ⟨h1, h2⟩
    have := (mem_mono_infected.mp h1).2.1
    have := (mem_multi_infected.mp h2).2.1
    omega
  · rintro r ⟨h1, h2⟩
    have := (mem_mono_infected.mp h1).2.2
    have := (mem_mono_uninfected.mp h2).2.2
    omega
  · rintro r ⟨h1, h2⟩
    have := (mem_mono_infected.mp h1).2.1
    have := (mem_multi_uninfected.mp h2).2.1
    omega
  · rintro r ⟨h1, h2⟩
    have := (mem_multi_infected.mp h1).2.1
    have := (mem_mono_uninfected.mp h2).2.1
    omega
  · rintro r ⟨h1, h2⟩
    have := (mem_multi_infected.mp h1).2.2
    have := (mem_multi_uninfected.mp h2).2.2
    omega
  · rintro r ⟨h1, h2⟩
    have := (mem_mono_uninfected.mp h1).2.1
    have := (mem_multi_uninfected.mp h2).2.1
    omega

/-- Witness for C1 at a concrete three-record input. -/
theorem classifier_partition_witness :
    (∀ r ∈ sample_df,
      (r.Classify_Mononucleated = 0 ∨ r.Classify_Mononucleated = 1) ∧
      (r.Classify_Infected = 0 ∨ r.Classify_Infected = 1))
    ∧ ((mono_infected sample_df).length + (multi_infected sample_df).length +
        (mono_uninfected sample_df).length + (multi_uninfected sample_df).length
        = sample_df.length) := by
  refine ⟨by decide, ?_⟩
  exact (classifier_partition sample_df (by decide)).1

/-- C9: A record whose `Classify_Infected` or `Classify_Mononucleated`
value is neither 0 nor 1 satisfies none of the four category filters, so
the classification step silently drops it from the output partition. -/
theorem invalid_flags_dropped (df : List Record) (r : Record)
    (h : (r.Classify_Mononucleated ≠ 0 ∧ r.Classify_Mononucleated ≠ 1) ∨
         (r.Classify_Infected ≠ 0 ∧ r.Classify_Infected ≠ 1)) :
    r ∉ mono_infected df ∧ r ∉ multi_infected df ∧
    r ∉ mono_uninfected df ∧ r ∉ multi_uninfected df := by
  refine ⟨fun hm => ?_, fun hm => ?_, fun hm => ?_, fun hm => ?_⟩
  · have := (mem_mono_infected.mp hm).2
    rcases h with ⟨h1, h2⟩ | ⟨h1, h2⟩ <;> omega
  · have := (mem_multi_infected.mp hm).2
    rcases h with ⟨h1, h2⟩ | ⟨h1, h2⟩ <;> omega
  · have := (mem_mono_uninfected.mp hm).2
    rcases h with ⟨h1, h2⟩ | ⟨h1, h2⟩ <;> omega
  · have := (mem_multi_uninfected.mp hm).2
    rcases h with ⟨h1, h2⟩ | ⟨h1, h2⟩ <;> omega

/-- Witness for C9: a record with flag value 2 lands in no category. -/
theorem invalid_flags_dropped_witness :
    ((bad_flag_record.Classify_Mononucleated ≠ 0 ∧
      bad_flag_record.Classify_Mononucleated ≠ 1) ∨
     (bad_flag_record.Classify_Infected ≠ 0 ∧
      bad_flag_record.Classify_Infected ≠ 1))
    ∧ (bad_flag_record ∉ mono_infected [bad_flag_record] ∧
       bad_flag_record ∉ multi_infected [bad_flag_record] ∧
       bad_flag_record ∉ mono_uninfected [bad_flag_record] ∧
       bad_flag_record ∉ multi_uninfected [bad_flag_record]) := by
  refine ⟨by decide, ?_⟩
  exact invalid_flags_dropped [bad_flag_record] bad_flag_record (by decide)

/-! ## Lemmas about the percentage arithmetic -/

theorem roundHalfEven_intCast (m : ℤ) : roundHalfEven (m : ℚ) = m := by
  simp only [roundHalfEven, Int.floor_intCast, sub_self]
  norm_num

theorem round2_intCast (n : ℤ) : round2 (n : ℚ) = (n : ℚ) := by
  have h : (n : ℚ) * 100 = ((n * 100 : ℤ) : ℚ) := by push_cast; ring
  rw [round2, h, roundHalfEven_intCast]
  push_cast
  ring

theorem pct_eq_num (x total : ℚ) (n : ℤ) (htotal : total ≠ 0)
    (hx : x / total * 100 = (n : ℚ)) : pct x total = .num n := by
  simp only [pct, pdDiv, if_neg htotal, pdMul, hx, pdRound2, round2_intCast]

/-- C2: For an input whose mono-infected cell count is 4, multi-infected
cell count 2, mono-infected nuclei sum 8, multi-infected nuclei sum 5,
total cell count 10 and total nuclei count 20, the summary table is exactly
the rows Mononucleated Infected (4, 8, 40.00, 40.00), Multinucleated
Infected (2, 5, 20.00, 25.00), Total Infected (6, 13, 60.00, 65.00) and the
final total row (10, 20) without percentages; the percentages are taken
over all categories and rounded to 2 decimal places. -/
theorem summary_table_values (df : List Record)
    (h1 : mono_cell_count df = 4) (h2 : multi_cell_count df = 2)
    (h3 : mono_nuclei_count df = 8) (h4 : multi_nuclei_count df = 5)
    (h5 : total_cells df = 10) (h6 : total_nuclei df = 20) :
    infected_summary_df df =
      [⟨"Mononucleated Infected", 4, 8, some (.num 40), some (.num 40)⟩,
       ⟨"Multinucleated Infected", 2, 5, some (.num 20), some (.num 25)⟩,
       ⟨"Total Infected", 6, 13, some (.num 60), some (.num 65)⟩,
       ⟨"Total incl uninfected", 10, 20, none, none⟩] := by
  have hti : total_infected_cell_count df = 6 := by
    rw [total_infected_cell_count, h1, h2]
  have htn : total_infected_nuclei_count df = 13 := by
    rw [total_infected_nuclei_count, h3, h4]; norm_num
  have e1 : pct ((4 : ℕ) : ℚ) ((10 : ℕ) : ℚ) = PdVal.num 40 :=
    pct_eq_num _ _ 40 (by norm_num) (by norm_num)
  have e2 : pct ((8 : ℤ) : ℚ) ((20 : ℤ) : ℚ) = PdVal.num 40 :=
    pct_eq_num _ _ 40 (by norm_num) (by norm_num)
  have e3 : pct ((2 : ℕ) : ℚ) ((10 : ℕ) : ℚ) = PdVal.num 20 :=
    pct_eq_num _ _ 20 (by norm_num) (by norm_num)
  have e4 : pct ((5 : ℤ) : ℚ) ((20 : ℤ) : ℚ) = PdVal.num 25 :=
    pct_eq_num _ _ 25 (by norm_num) (by norm_num)
  have e5 : pct ((6 : ℕ) : ℚ) ((10 : ℕ) : ℚ) = PdVal.num 60 :=
    pct_eq_num _ _ 60 (by norm_num) (by norm_num)
  have e6 : pct ((13 : ℤ) : ℚ) ((20 : ℤ) : ℚ) = PdVal.num 65 :=
    pct_eq_num _ _ 65 (by norm_num) (by norm_num)
  simp only [infected_summary_df, h1, h2, h3, h4, h5, h6, hti, htn,
    e1, e2, e3, e4, e5, e6]

/-- Witness for C2 at the concrete ten-record sample. -/
theorem summary_table_values_witness :
    (mono_cell_count sample_df10 = 4 ∧ multi_cell_count sample_df10 = 2 ∧
     mono_nuclei_count sample_df10 = 8 ∧ multi_nuclei_count sample_df10 = 5 ∧
     total_cells sample_df10 = 10 ∧ total_nuclei sample_df10 = 20)
    ∧ infected_summary_df sample_df10 =
      [⟨"Mononucleated Infected", 4, 8, some (.num 40), some (.num 40)⟩,
       ⟨"Multinucleated Infected", 2, 5, some (.num 20), some (.num 25)⟩,
       ⟨"Total Infected", 6, 13, some (.num 60), some (.num 65)⟩,
       ⟨"Total incl uninfected", 10, 20, none, none⟩] := by
  refine ⟨by refine ⟨?_, ?_, ?_, ?_, ?_, ?_⟩ <;> decide, ?_⟩
  exact summary_table_values sample_df10 (by decide) (by decide) (by decide)
    (by decide) (by decide) (by decide)

/-- C3 counterexample: for infected nuclei counts `[1, 1, 2, 5, 7]` and
`max_bin = 5` the histogram output is not the sparse three-bucket sequence
the claim states: the zero-count bucket "3" appears in the output. -/
theorem histogram_sparse_counterexample :
    ("3", 0) ∈ nuclei_distribution 5 [1, 1, 2, 5, 7] ∧
    nuclei_distribution 5 [1, 1, 2, 5, 7] ≠ [("1", 2), ("2", 1), ("5+", 2)] := by
  decide

/-- C3 amended: for infected nuclei counts `[1, 1, 2, 5, 7]` and
`max_bin = 5` the histogram yields the buckets 1 ↦ 2, 2 ↦ 1, 3 ↦ 0,
4 ↦ 0, "5+" ↦ 2, and in general every bucket label appears in the output
(dense representation): `value_counts` on a categorical lists zero-count
categories as well. -/
theorem histogram_dense_buckets :
    nuclei_distribution 5 [1, 1, 2, 5, 7] =
      [("1", 2), ("2", 1), ("3", 0), ("4", 0), ("5+", 2)]
    ∧ ∀ (maxBin : ℕ) (xs : List ℤ),
        (nuclei_distribution maxBin xs).map Prod.fst =
          (List.range maxBin).map (fun k => bucket_label maxBin (k + 1)) := by
  refine ⟨by decide, fun maxBin xs => ?_⟩
  simp [nuclei_distribution, List.map_map, Function.comp]

theorem pct_zero_zero : pct 0 0 = PdVal.nan := by
  simp [pct, pdDiv, pdMul, pdRound2]

theorem all_zero_of_sum_nonneg (l : List ℤ) (h : ∀ x ∈ l, 0 ≤ x)
    (hs : l.sum = 0) : ∀ x ∈ l, x = 0 := by
  induction l with
  | nil => simp
  | cons a t ih =>
    have ha : 0 ≤ a := h a (List.mem_cons_self a t)
    have htn : 0 ≤ t.sum := List.sum_nonneg (fun x hx => h x (List.mem_cons_of_mem a hx))
    have hsum : a + t.sum = 0 := by simpa using hs
    intro x hx
    rcases List.mem_cons.mp hx with rfl | hx'
    · omega
    · exact ih (fun y hy => h y (List.mem_cons_of_mem a hy)) (by omega) x hx'

theorem mono_nuclei_count_zero (df : List Record)
    (hz : ∀ r ∈ df, r.Children_Nuclei_Count = 0) : mono_nuclei_count df = 0 := by
  simp only [mono_nuclei_count]
  refine List.sum_eq_zero (fun x hx => ?_)
  obtain ⟨r, hr, rfl⟩ := List.mem_map.mp hx
  exact hz r (List.mem_of_mem_filter (List.mem_of_mem_filter hr))

theorem multi_nuclei_count_zero (df : List Record)
    (hz : ∀ r ∈ df, r.Children_Nuclei_Count = 0) : multi_nuclei_count df = 0 := by
  simp only [multi_nuclei_count]
  refine List.sum_eq_zero (fun x hx => ?_)
  obtain ⟨r, hr, rfl⟩ := List.mem_map.mp hx
  exact hz r (List.mem_of_mem_filter (List.mem_of_mem_filter hr))

/-- C6: When the total cell count is zero every percentage cell of the
three infected summary rows is the NaN sentinel, and when every nuclei
count is nonnegative and the total nuclei count is zero the
percent-of-total-nuclei cells are the NaN sentinel; the summary computation
is a total function (pandas divides by zero without raising), the total row
carries no percentages either way. -/
theorem zero_totals_sentinel (df : List Record) :
    (total_cells df = 0 →
      (infected_summary_df df).map
          (fun row => (row.pct_of_total_cells, row.pct_of_total_nuclei)) =
        [(some .nan, some .nan), (some .nan, some .nan), (some .nan, some .nan),
         (none, none)])
    ∧ ((∀ r ∈ df, 0 ≤ r.Children_Nuclei_Count) → total_nuclei df = 0 →
      (infected_summary_df df).map (fun row => row.pct_of_total_nuclei) =
        [some .nan, some .nan, some .nan, none]) := by
  constructor
  · intro h
    have hdf : df = [] := List.length_eq_zero.mp h
    subst hdf
    simp [infected_summary_df, mono_cell_count, multi_cell_count,
      mono_nuclei_count, multi_nuclei_count, total_infected_cell_count,
      total_infected_nuclei_count, total_cells, total_nuclei, mono_df,
      multi_df, infected_summary, pct_zero_zero]
  · intro hn h0
    have h0' : (df.map (fun r => r.Children_Nuclei_Count)).sum = 0 := h0
    have hz : ∀ r ∈ df, r.Children_Nuclei_Count = 0 := by
      intro r hr
      refine all_zero_of_sum_nonneg (df.map (fun r => r.Children_Nuclei_Count))
        (fun x hx => ?_) h0' _ (List.mem_map_of_mem _ hr)
      obtain ⟨s, hs, rfl⟩ := List.mem_map.mp hx
      exact hn s hs
    have hm := mono_nuclei_count_zero df hz
    have hmu := multi_nuclei_count_zero df hz
    have ht : total_infected_nuclei_count df = 0 := by
      rw [total_infected_nuclei_count, hm, hmu]; norm_num
    simp [infected_summary_df, hm, hmu, ht, h0, pct_zero_zero]

/-- Witness for C6 at the empty input and at a one-record zero-nuclei
input. -/
theorem zero_totals_sentinel_witness :
    (total_cells ([] : List Record) = 0 ∧
      (infected_summary_df ([] : List Record)).map
          (fun row => (row.pct_of_total_cells, row.pct_of_total_nuclei)) =
        [(some .nan, some .nan), (some .nan, some .nan), (some .nan, some .nan),
         (none, none)])
    ∧ ((∀ r ∈ sample_zero_nuclei_df, 0 ≤ r.Children_Nuclei_Count) ∧
       total_nuclei sample_zero_nuclei_df = 0 ∧
       (infected_summary_df sample_zero_nuclei_df).map
           (fun row => row.pct_of_total_nuclei) =
         [some .nan, some .nan, some .nan, none]) := by
  refine ⟨⟨by decide, (zero_totals_sentinel []).1 (by decide)⟩,
          ⟨by decide, by decide,
           (zero_totals_sentinel sample_zero_nuclei_df).2 (by decide) (by decide)⟩⟩

/-- C5: When some required column is absent from an input source after
header whitespace-normalisation (and the configured column names carry no
incidental whitespace themselves), loading fails with the missing-columns
error whose list contains every such absent required column, and the driver
records the error for that input and leaves its loop state untouched
(the input is skipped). -/
theorem missing_columns_listed (summary_columns headers : List String)
    (rows : List Record) (remove_zero_nuclei : Bool) (maxBin : ℕ) (st : Option ℕ)
    (htrim : ∀ c ∈ required_columns summary_columns, str_strip c = c)
    (habsent : ∃ c ∈ required_columns summary_columns, c ∉ headers.map str_strip) :
    read_input (required_columns summary_columns) (.table headers rows) =
      .error (.missingColumns (missing_usecols headers (required_columns summary_columns)))
    ∧ (∀ c ∈ required_columns summary_columns, c ∉ headers.map str_strip →
        c ∈ missing_usecols headers (required_columns summary_columns))
    ∧ driver_step summary_columns remove_zero_nuclei maxBin st (.table headers rows) =
        some (st, .error (.missingColumns
          (missing_usecols headers (required_columns summary_columns)))) := by
  have key : ∀ c ∈ required_columns summary_columns,
      c ∉ headers.map str_strip → c ∈ missing_usecols headers (required_columns summary_columns) := by
    intro c hc habs
    have hnotraw : c ∉ headers := by
      intro hmem
      exact habs (htrim c hc ▸ List.mem_map_of_mem str_strip hmem)
    simp only [missing_usecols, List.mem_filter]
    exact ⟨hc, by simpa using hnotraw⟩
  obtain ⟨c, hc, habs⟩ := habsent
  have hne : missing_usecols headers (required_columns summary_columns) ≠ [] :=
    List.ne_nil_of_mem (key c hc habs)
  have hread : read_input (required_columns summary_columns) (.table headers rows) =
      .error (.missingColumns (missing_usecols headers (required_columns summary_columns))) := by
    simp only [read_input, if_neg hne]
  refine ⟨hread, key, ?_⟩
  simp only [driver_step, hread]

/-- Witness for C5: a header containing only the identifier column. -/
theorem missing_columns_listed_witness :
    (∀ c ∈ required_columns default_columns, str_strip c = c)
    ∧ (∃ c ∈ required_columns default_columns,
        c ∉ (["ObjectNumber"] : List String).map str_strip)
    ∧ read_input (required_columns default_columns)
        (.table ["ObjectNumber"] []) =
      .error (.missingColumns
        (missing_usecols ["ObjectNumber"] (required_columns default_columns))) := by
  refine ⟨by decide, by decide, ?_⟩
  exact (missing_columns_listed default_columns ["ObjectNumber"] [] false 5 none
    (by decide) (by decide)).1

/-! ## Lemmas about the sheet-name allocator -/

theorem allocLoop_not_mem (used : List String) (base_name : String) (max_length : ℕ) :
    ∀ (fuel : ℕ) (unique : String) (counter : ℕ) (u : String),
      allocLoop used base_name max_length fuel unique counter = some u → u ∉ used := by
  intro fuel
  induction fuel with
  | zero =>
    intro unique counter u h
    simp only [allocLoop] at h
    by_cases hmem : unique ∈ used
    · simp [hmem] at h
    · simp [hmem] at h
      exact h ▸ hmem
  | succ f ih =>
    intro unique counter u h
    simp only [allocLoop] at h
    by_cases hmem : unique ∈ used
    · rw [if_pos hmem] at h
      exact ih _ _ _ h
    · rw [if_neg hmem] at h
      cases h
      exact hmem

theorem get_unique_sheet_name_spec {fuel : ℕ} {used : List String} {name u : String}
    {used' : List String} (h : get_unique_sheet_name fuel used name = some (u, used')) :
    u ∉ used ∧ used' = u :: used := by
  simp only [get_unique_sheet_name, Option.map_eq_some'] at h
  obtain ⟨v, hv, heq⟩ := h
  obtain ⟨rfl, rfl⟩ := Prod.mk.injEq .. ▸ heq
  exact ⟨allocLoop_not_mem _ _ _ _ _ _ _ hv, rfl⟩

theorem allocRun_spec (fuel : ℕ) :
    ∀ (names used outs used' : List String),
      allocRun fuel used names = some (outs, used') →
      (∀ o ∈ outs, o ∉ used) ∧ outs.Pairwise (fun a b => a ≠ b) := by
  intro names
  induction names with
  | nil =>
    intro used outs used' h
    simp only [allocRun] at h
    cases h
    exact ⟨by simp, List.Pairwise.nil⟩
  | cons n ns ih =>
    intro used outs used' h
    simp only [allocRun] at h
    cases hg : get_unique_sheet_name fuel used n with
    | none => rw [hg] at h; cases h
    | some p =>
      obtain ⟨u, used1⟩ := p
      rw [hg] at h
      dsimp only at h
      obtain ⟨hnotmem, rfl⟩ := get_unique_sheet_name_spec hg
      cases hrec : allocRun fuel (u :: used) ns with
      | none => rw [hrec] at h; cases h
      | some q =>
        obtain ⟨outs1, used1'⟩ := q
        rw [hrec] at h
        simp only [Option.map_some'] at h
        cases h
        obtain ⟨hall, hpw⟩ := ih _ _ _ hrec
        refine ⟨?_, ?_⟩
        · intro o ho
          rcases List.mem_cons.mp ho with rfl | ho'
          · exact hnotmem
          · intro hmem
            exact hall o ho' (List.mem_cons_of_mem u hmem)
        · refine List.Pairwise.cons (fun o ho => ?_) hpw
          intro heq
          exact hall o ho (heq ▸ List.mem_cons_self u used)

/-- C4: Within one artifact scope no two allocator calls return the same
name (every successful run of allocations yields pairwise distinct names),
and the used-name set being re-initialised to empty at the start of each
artifact allows a previously returned name to be returned again: against a
scope already holding "Sheet" the allocator answers "Sheet_1", while after
a reset to the empty scope the same request answers "Sheet" again. -/
theorem allocator_unique_per_scope :
    (∀ (fuel : ℕ) (used names outs used' : List String),
        allocRun fuel used names = some (outs, used') →
        outs.Pairwise (fun a b => a ≠ b))
    ∧ get_unique_sheet_name 10 ["Sheet"] "Sheet" = some ("Sheet_1", ["Sheet_1", "Sheet"])
    ∧ get_unique_sheet_name 10 [] "Sheet" = some ("Sheet", ["Sheet"]) := by
  exact ⟨fun fuel used names outs used' h => (allocRun_spec fuel names used outs used' h).2,
    by decide, by decide⟩

/-- Witness for C4: allocating the same requested name twice in one scope
yields two distinct sheet names. -/
theorem allocator_unique_per_scope_witness :
    allocRun 5 [] ["Sheet", "Sheet"] = some (["Sheet", "Sheet_1"], ["Sheet_1", "Sheet"])
    ∧ List.Pairwise (fun a b : String => a ≠ b) ["Sheet", "Sheet_1"] := by
  refine ⟨by decide, ?_⟩
  exact allocator_unique_per_scope.1 5 [] ["Sheet", "Sheet"] ["Sheet", "Sheet_1"]
    ["Sheet_1", "Sheet"] (by decide)

theorem pySliceStop_length_le (s : String) (stop : Int) (h : 0 ≤ stop) :
    (pySliceStop s stop).length ≤ stop.toNat := by
  simp only [pySliceStop, if_pos h]
  show (s.data.take stop.toNat).length ≤ stop.toNat
  simp [List.length_take]

theorem candidateName_length_le (base_name : String) (max_length c : ℕ)
    (h : ("_" ++ toString c).length ≤ max_length) :
    (candidateName base_name max_length c).length ≤ max_length := by
  simp only [candidateName]
  rw [String.length_append]
  have h0 : (0 : Int) ≤ (max_length : Int) - (("_" ++ toString c).length : Int) := by
    omega
  have hle := pySliceStop_length_le base_name _ h0
  omega

theorem allocLoop_length_le (used : List String) (base_name : String) (max_length : ℕ) :
    ∀ (fuel : ℕ) (unique : String) (counter : ℕ) (u : String),
      unique.length ≤ max_length →
      (∀ c, counter ≤ c → c < counter + fuel → ("_" ++ toString c).length ≤ max_length) →
      allocLoop used base_name max_length fuel unique counter = some u →
      u.length ≤ max_length := by
  intro fuel
  induction fuel with
  | zero =>
    intro unique counter u hlen _ h
    simp only [allocLoop] at h
    by_cases hmem : unique ∈ used
    · simp [hmem] at h
    · simp [hmem] at h
      exact h ▸ hlen
  | succ f ih =>
    intro unique counter u hlen hfit h
    simp only [allocLoop] at h
    by_cases hmem : unique ∈ used
    · rw [if_pos hmem] at h
      refine ih _ _ _ ?_ ?_ h
      · exact candidateName_length_le _ _ _ (hfit counter (le_refl _) (by omega))
      · intro c hc1 hc2
        exact hfit c (by omega) (by omega)
    · rw [if_neg hmem] at h
      cases h
      exact hlen

/-- C10: Every name returned by `get_unique_sheet_name` has length at most
25, the default `max_length`, including when a numeric collision suffix is
appended, because the base is truncated to make room — provided every
suffix tried fits within 25 characters (true of every fuel budget below
10^24 collisions; with Python's negative-slice semantics an astronomically
long suffix could exceed the bound). -/
theorem sheet_name_length_bounded (fuel : ℕ) (used : List String) (name u : String)
    (used' : List String)
    (hfit : ∀ c, c ≤ fuel → 1 ≤ c → ("_" ++ toString c).length ≤ 25)
    (h : get_unique_sheet_name fuel used name = some (u, used')) :
    u.length ≤ 25 := by
  simp only [get_unique_sheet_name, Option.map_eq_some'] at h
  obtain ⟨v, hv, heq⟩ := h
  have h1 : v = u := congrArg Prod.fst heq
  subst h1
  refine allocLoop_length_le used _ 25 fuel _ 1 v ?_ ?_ hv
  · have := pySliceStop_length_le name (25 : Int) (by norm_num)
    simpa using this
  · intro c hc1 hc2
    exact hfit c (by omega) (by omega)

/-- Witness for C10 at a colliding request. -/
theorem sheet_name_length_bounded_witness :
    (∀ c, c ≤ 3 → 1 ≤ c → ("_" ++ toString c).length ≤ 25)
    ∧ get_unique_sheet_name 3 ["Sheet"] "Sheet" = some ("Sheet_1", ["Sheet_1", "Sheet"])
    ∧ ("Sheet_1" : String).length ≤ 25 := by
  refine ⟨by decide, by decide, ?_⟩
  exact sheet_name_length_bounded 3 ["Sheet"] "Sheet" "Sheet_1" ["Sheet_1", "Sheet"]
    (by decide) (by decide)

/-! ## Lemmas about the sheet reorder -/

theorem append_sheets_eq_append (existing new : List String)
    (hnew : ∀ n ∈ new, n ∉ existing) (hnodup : new.Nodup) :
    append_sheets existing new = existing ++ new := by
  induction new generalizing existing with
  | nil => simp [append_sheets]
  | cons n ns ih =>
    have hn : n ∉ existing := hnew n (List.mem_cons_self n ns)
    have hns : ∀ m ∈ ns, m ∉ existing ++ [n] := by
      intro m hm
      simp only [List.mem_append, List.mem_singleton]
      rintro (hmem | rfl)
      · exact hnew m (List.mem_cons_of_mem n hm) hmem
      · exact (List.nodup_cons.mp hnodup).1 hm
    have := ih (existing ++ [n]) hns (List.nodup_cons.mp hnodup).2
    simp only [append_sheets, List.foldl_cons, if_neg hn] at this ⊢
    rw [this]
    simp

theorem reorderSheets_spec (colSheets : List String)
    (h1 : ∀ s ∈ colSheets, s ∉ priority_order) :
    reorderSheets (category_sheet_names ++ ["Cell Count Summary"] ++ colSheets) =
      "Cell Count Summary" :: (category_sheet_names ++ colSheets) := by
  have hc : ("Cell Count Summary" : String) ∈
      category_sheet_names ++ ["Cell Count Summary"] ++ colSheets := by
    simp [category_sheet_names]
  have hA : ("AreaShape_Area Summary" : String) ∉
      category_sheet_names ++ ["Cell Count Summary"] ++ colSheets := by
    intro hmem
    rcases List.mem_append.mp hmem with hmem' | hmem''
    · revert hmem'; decide
    · exact h1 _ hmem'' (by decide)
  have hN : ("Children_Nuclei_Count Sum" : String) ∉
      category_sheet_names ++ ["Cell Count Summary"] ++ colSheets := by
    intro hmem
    rcases List.mem_append.mp hmem with hmem' | hmem''
    · revert hmem'; decide
    · exact h1 _ hmem'' (by decide)
  have hc' : decide (("Cell Count Summary" : String) ∈
      category_sheet_names ++ ["Cell Count Summary"] ++ colSheets) = true :=
    decide_eq_true hc
  have hA' : decide (("AreaShape_Area Summary" : String) ∈
      category_sheet_names ++ ["Cell Count Summary"] ++ colSheets) = false :=
    decide_eq_false hA
  have hN' : decide (("Children_Nuclei_Count Sum" : String) ∈
      category_sheet_names ++ ["Cell Count Summary"] ++ colSheets) = false :=
    decide_eq_false hN
  have part1 : priority_order.filter
      (fun s => decide (s ∈ category_sheet_names ++ ["Cell Count Summary"] ++ colSheets)) =
      ["Cell Count Summary"] := by
    simp only [priority_order, List.filter, hc', hA', hN']
  have part2 : (category_sheet_names ++ ["Cell Count Summary"] ++ colSheets).filter
      (fun s => decide (s ∉ priority_order)) =
      category_sheet_names ++ colSheets := by
    rw [List.filter_append, List.filter_append]
    have e1 : category_sheet_names.filter (fun s => decide (s ∉ priority_order)) =
        category_sheet_names := by decide
    have e2 : (["Cell Count Summary"] : List String).filter
        (fun s => decide (s ∉ priority_order)) = [] := by decide
    have e3 : colSheets.filter (fun s => decide (s ∉ priority_order)) = colSheets :=
      List.filter_eq_self.mpr (fun s hs => decide_eq_true (h1 s hs))
    rw [e1, e2, e3]
    simp
  show priority_order.filter _ ++ _ = _
  rw [part1, part2]
  simp

/-- C7 counterexample: for the non-default requested columns
`["Foo", "Children_Nuclei_Count"]` — a configuration that loads the nuclei
column, so the run reaches the reorder step and finishes — the final order
is combined summary, then 'Children_Nuclei_Count Sum' (hardcoded in
`priority_order`), then the four category sheets, then "Foo Summary" last:
the per-column sheets are neither directly after the combined sheet nor in
requested-column order, contradicting the claim. -/
theorem sheet_reorder_counterexample :
    final_sheet_order 10 ["Foo", "Children_Nuclei_Count"] =
      some ["Cell Count Summary", "Children_Nuclei_Count Sum",
            "Mononucleated_Infected", "Multinucleated_Infected",
            "Mononucleated_Uninfected", "Multinucleated_Uninfected", "Foo Summary"]
    ∧ final_sheet_order 10 ["Foo", "Children_Nuclei_Count"] ≠
      some ["Cell Count Summary", "Foo Summary", "Children_Nuclei_Count Sum",
            "Mononucleated_Infected", "Multinucleated_Infected",
            "Mononucleated_Uninfected", "Multinucleated_Uninfected"] := by
  decide

/-- C7 amended: for run configurations that reach the reorder step (the
requested columns include `Children_Nuclei_Count`; otherwise the run dies
at line 193 with no artifact, third conjunct), the reorder moves forward
only the three hardcoded names 'Cell Count Summary', 'AreaShape_Area
Summary', 'Children_Nuclei_Count Sum', in that fixed order, and leaves
every other sheet in its prior relative order. For per-column sheets
outside the hardcoded list the combined summary sheet therefore comes
first, then the category sheets, then the per-column sheets; only under
the default column configuration does the final order match the claim. -/
theorem sheet_reorder_hardcoded (colSheets : List String)
    (h1 : ∀ s ∈ colSheets, s ∉ priority_order)
    (h2 : ∀ s ∈ colSheets, s ∉ category_sheet_names)
    (h3 : colSheets.Nodup) :
    reorderSheets (append_sheets (append_sheets category_sheet_names
        ["Cell Count Summary"]) colSheets) =
      "Cell Count Summary" :: (category_sheet_names ++ colSheets)
    ∧ final_sheet_order 10 default_columns =
      some ["Cell Count Summary", "AreaShape_Area Summary", "Children_Nuclei_Count Sum",
            "Mononucleated_Infected", "Multinucleated_Infected",
            "Mononucleated_Uninfected", "Multinucleated_Uninfected"]
    ∧ final_sheet_order 10 ["Foo"] = none := by
  refine ⟨?_, by decide, by decide⟩
  have e0 : append_sheets category_sheet_names ["Cell Count Summary"] =
      category_sheet_names ++ ["Cell Count Summary"] := by decide
  rw [e0]
  have e1 : append_sheets (category_sheet_names ++ ["Cell Count Summary"]) colSheets =
      category_sheet_names ++ ["Cell Count Summary"] ++ colSheets := by
    refine append_sheets_eq_append _ _ ?_ h3
    intro n hn
    simp only [List.mem_append, List.mem_singleton]
    rintro (hmem | rfl)
    · exact h2 n hn hmem
    · exact h1 _ hn (by decide)
  rw [e1]
  exact reorderSheets_spec colSheets h1

/-- Witness for C7 amended at the concrete column sheet "Foo Summary". -/
theorem sheet_reorder_hardcoded_witness :
    ((∀ s ∈ (["Foo Summary"] : List String), s ∉ priority_order) ∧
     (∀ s ∈ (["Foo Summary"] : List String), s ∉ category_sheet_names) ∧
     (["Foo Summary"] : List String).Nodup)
    ∧ reorderSheets (append_sheets (append_sheets category_sheet_names
        ["Cell Count Summary"]) ["Foo Summary"]) =
      "Cell Count Summary" :: (category_sheet_names ++ ["Foo Summary"]) := by
  refine ⟨⟨by decide, by decide, by decide⟩, ?_⟩
  exact (sheet_reorder_hardcoded ["Foo Summary"] (by decide) (by decide) (by decide)).1

/-! ## Lemmas about the driver loop -/

theorem find_start_row_aux_isSome :
    ∀ (l : List String) (row : ℕ), distribution_header ∈ l →
      (find_start_row_aux l row).isSome := by
  intro l
  induction l with
  | nil => intro row h; cases h
  | cons c rest ih =>
    intro row hmem
    simp only [find_start_row_aux]
    cases h : find_start_row_aux rest (row + 1) with
    | some r => simp
    | none =>
      rcases List.mem_cons.mp hmem with rfl | hmem'
      · simp
      · have := ih (row + 1) hmem'
        rw [h] at this
        cases this

theorem find_start_row_combined_isSome (summary : List SummaryRow)
    (dist : List (String × ℕ)) :
    (find_start_row (combined_colA summary dist)).isSome := by
  refine find_start_row_aux_isSome _ 1 ?_
  simp [combined_colA]

theorem driver_step_eq (summary_columns : List String) (remove_zero_nuclei : Bool)
    (maxBin : ℕ) (st : Option ℕ) (inp : InputSource)
    (hkey : "Children_Nuclei_Count" ∈ required_columns summary_columns) :
    ∃ st', driver_step summary_columns remove_zero_nuclei maxBin st inp =
      some (st', process_input summary_columns remove_zero_nuclei maxBin inp) := by
  cases hread : read_input (required_columns summary_columns) inp with
  | error e =>
    exact ⟨st, by simp only [driver_step, process_input, hread]⟩
  | ok rows =>
    have hsome := find_start_row_combined_isSome
      (infected_summary_df (apply_zero_filter remove_zero_nuclei
        (required_columns summary_columns) rows))
      (nuclei_distribution maxBin
        ((infected_summary (apply_zero_filter remove_zero_nuclei
          (required_columns summary_columns) rows)).map
          (fun r => r.Children_Nuclei_Count)))
    cases hfind : find_start_row (combined_colA
        (infected_summary_df (apply_zero_filter remove_zero_nuclei
          (required_columns summary_columns) rows))
        (nuclei_distribution maxBin
          ((infected_summary (apply_zero_filter remove_zero_nuclei
            (required_columns summary_columns) rows)).map
            (fun r => r.Children_Nuclei_Count)))) with
    | none => rw [hfind] at hsome; cases hsome
    | some r =>
      refine ⟨some r, ?_⟩
      simp only [driver_step, process_input, hread, if_pos hkey, hfind, Option.getD_some]

theorem driver_run_eq_map (summary_columns : List String) (remove_zero_nuclei : Bool)
    (maxBin : ℕ)
    (hkey : "Children_Nuclei_Count" ∈ required_columns summary_columns) :
    ∀ (inputs : List InputSource) (st : Option ℕ),
      driver_run summary_columns remove_zero_nuclei maxBin st inputs =
        some (inputs.map (process_input summary_columns remove_zero_nuclei maxBin)) := by
  intro inputs
  induction inputs with
  | nil => intro st; rfl
  | cons inp rest ih =>
    intro st
    obtain ⟨st', hstep⟩ :=
      driver_step_eq summary_columns remove_zero_nuclei maxBin st inp hkey
    simp only [driver_run, hstep, ih st', Option.map_some', List.map_cons]

/-- C8: For every run whose configuration loads the nuclei-count column,
the driver is equivalent to processing every input independently: a
per-input load failure (missing path, empty source, missing required
columns) yields an error entry for that input only, the run never aborts,
and each input's result does not depend on earlier inputs — in particular
the chart-placement search always finds the histogram section header it
just wrote, so the stale-state and unbound-variable paths of lines 316-337
are never taken. -/
theorem per_input_failure_isolation (summary_columns : List String)
    (remove_zero_nuclei : Bool) (maxBin : ℕ) (inputs : List InputSource)
    (st : Option ℕ)
    (hkey : "Children_Nuclei_Count" ∈ required_columns summary_columns) :
    driver_run summary_columns remove_zero_nuclei maxBin st inputs =
      some (inputs.map (process_input summary_columns remove_zero_nuclei maxBin)) :=
  driver_run_eq_map summary_columns remove_zero_nuclei maxBin hkey inputs st

/-- Witness for C8 at a run mixing a missing input, a good input and an
empty input. -/
theorem per_input_failure_isolation_witness :
    ("Children_Nuclei_Count" ∈ required_columns default_columns)
    ∧ driver_run default_columns false 5 none
        [InputSource.missing,
         InputSource.table (required_columns default_columns) sample_df,
         InputSource.empty] =
      some ([InputSource.missing,
             InputSource.table (required_columns default_columns) sample_df,
             InputSource.empty].map (process_input default_columns false 5)) := by
  refine ⟨by decide, ?_⟩
  exact per_input_failure_isolation default_columns false 5 _ none (by decide)

end PatrickJane
